import Mathlib

/-!
Verification of the NetBpfLoad bootstrap (src/netbpfload/NetBpfLoad.cpp).

The program is shallowly embedded as pure Lean functions.  External
collaborators (the object loader `loadProg`, the `access`/`mkdir`/`open`
syscalls, the map primitives, `execve`) are passed in as oracle parameters
recording exactly the result the program would observe; everything the
program itself computes from those results is translated from the source.
-/

namespace NetBpfLoad

/-! ## Constants from the source and from the platform headers -/

def platformBpfLoader : String := "/system/bin/bpfloader"

def platformNetBpfLoad : String := "/system/bin/netbpfload"

def apexNetBpfLoad : String := "/apex/com.android.tethering/bin/netbpfload"

def ENOENT : Nat := 2

def EEXIST : Nat := 17

def EINVAL : Nat := 22

/-- `BPF_MAP_TYPE_ARRAY` from linux/bpf.h. -/
def BPF_MAP_TYPE_ARRAY : Nat := 2

/-- `__ANDROID_API_T__` from android/api-level.h. -/
def ANDROID_API_T : Int := 33

/-- `__ANDROID_API_U__` from android/api-level.h. -/
def ANDROID_API_U : Int := 34

/-- `__ANDROID_API_V__` from android/api-level.h. -/
def ANDROID_API_V : Int := 35

def S_ISVTX : Nat := 0o1000

def S_IRWXU : Nat := 0o700

def S_IRWXG : Nat := 0o70

def S_IRWXO : Nat := 0o7

/-! ## The `exists` probe (NetBpfLoad.cpp lines 58-67) -/

/-- Result of the underlying `access(path, F_OK)` call: success, or failure
with the given errno. -/
inductive AccessResult where
  | ok : AccessResult
  | error (errno : Nat) : AccessResult
deriving DecidableEq

/-- What the `exists` function does: return a boolean, or `abort()`. -/
inductive ExistsOutcome where
  | returns (b : Bool) : ExistsOutcome
  | aborts : ExistsOutcome
deriving DecidableEq

/-- `bool exists(const char* path)` from NetBpfLoad.cpp lines 58-67, as a
function of the observed `access(path, F_OK)` result. -/
def existsProbe (r : AccessResult) : ExistsOutcome :=
  match r with
  | .ok => .returns true
  | .error e => if e = ENOENT then .returns false else .aborts

/-! ## The Boot-Variant Resolver (main, lines 236-289) -/

/-- The possible control-flow outcomes of the resolver portion of `main`:
fail with exit 1 because argv[0] is unrecognized; execve the apex (mainline
module) copy; fail because neither platform init script exists; fail because
both exist; execve the legacy platform bpfloader; or fall through and proceed
with the rest of the pipeline. -/
inductive ResolverOutcome where
  | failUnknown : ResolverOutcome
  | delegateToApex : ResolverOutcome
  | failMissing : ResolverOutcome
  | failConflict : ResolverOutcome
  | delegateLegacy : ResolverOutcome
  | proceed : ResolverOutcome
deriving DecidableEq

/-- The resolver decision of `main` (lines 256-289) as a pure function of the
four booleans the code computes: `is_platform` (argv[0] equals
`platformNetBpfLoad`), `is_mainline` (argv[0] equals `apexNetBpfLoad`),
`has_platform_bpfloader_rc` (legacy init script present) and
`has_platform_netbpfload_rc` (new init script present), with the branches in
source order. -/
def resolve (is_platform is_mainline legacy_rc new_rc : Bool) : ResolverOutcome :=
  if !is_platform && !is_mainline then .failUnknown
  else if is_platform then .delegateToApex
  else if !legacy_rc && !new_rc then .failMissing
  else if legacy_rc && new_rc then .failConflict
  else if is_mainline && legacy_rc && !new_rc then .delegateLegacy
  else .proceed

/-- The resolver as run by `main`: the two argv[0] booleans are derived from
the actual argv[0] string by `strcmp` against the two known paths
(lines 236-239). -/
def resolveArgv (argv0 : String) (legacy_rc new_rc : Bool) : ResolverOutcome :=
  resolve (argv0 = platformNetBpfLoad) (argv0 = apexNetBpfLoad) legacy_rc new_rc

/-- The outcome set named by the specification sentence under test:
{fail-unknown, fail-conflict, delegate-legacy, proceed}. -/
def inClaimedResolverSet : ResolverOutcome → Bool
  | .failUnknown => true
  | .failConflict => true
  | .delegateLegacy => true
  | .proceed => true
  | _ => false

/-! ## Kernel version comparison and the capability gate (lines 291-331) -/

/-- A kernel version triple (major, minor, patch). -/
structure KVer where
  major : Nat
  minor : Nat
  sub : Nat
deriving DecidableEq

/-- Modelled from the spec: the kernel-version introspection helper
`isAtLeastKernelVersion(major, minor, sub)` lives in `bpf/BpfUtils.h`, an
external collaborator whose source is not under src/.  Per the spec it
compares the detected kernel version triple (major, minor, patch) against a
minimum triple, "strictly below" meaning lexicographically below. -/
def isAtLeastKernelVersion (k : KVer) (a b c : Nat) : Bool :=
  decide (a < k.major ∨ (a = k.major ∧ (b < k.minor ∨ (b = k.minor ∧ c ≤ k.sub))))

/-- The kernel capability gate of `main`, lines 291-331: the warn-only T and U
kernel checks, the fatal V kernel check, the fatal V x86 64-bit-kernel check
and the fatal 32-bit-userspace-on-6.2+ check, in source order.  Returns the
list of emitted log lines and `some 1` when the gate exits the process with
code 1, `none` when control continues. -/
def capabilityGate (device_api_level : Int) (k : KVer)
    (isX86 isKernel64Bit isUserspace32bit : Bool) : List String × Option Int :=
  let isAtLeastT : Bool := decide (device_api_level ≥ ANDROID_API_T)
  let isAtLeastU : Bool := decide (device_api_level ≥ ANDROID_API_U)
  let isAtLeastV : Bool := decide (device_api_level ≥ ANDROID_API_V)
  let logsT : List String :=
    if isAtLeastT && !isAtLeastKernelVersion k 4 9 0 then
      ["Android T requires kernel 4.9."] else []
  let logsU : List String :=
    logsT ++ (if isAtLeastU && !isAtLeastKernelVersion k 4 14 0 then
      ["Android U requires kernel 4.14."] else [])
  if isAtLeastV && !isAtLeastKernelVersion k 4 19 0 then
    (logsU ++ ["Android V requires kernel 4.19."], some 1)
  else if isAtLeastV && isX86 && !isKernel64Bit then
    (logsU ++ ["Android V requires X86 kernel to be 64-bit."], some 1)
  else if isUserspace32bit && isAtLeastKernelVersion k 6 2 0 then
    (logsU ++ ["64-bit userspace required on 6.2+ kernels."], some 1)
  else (logsU, none)

/-! ## writeProcSysFile (lines 150-170) and the sysctl phase (lines 340-362) -/

/-- The observable result of the `open`+`write` pair inside
`writeProcSysFile`: the open failed with an errno, the write failed with an
errno, or the write returned `v ≥ 0` bytes. -/
inductive SysFileResult where
  | openFail (errno : Nat) : SysFileResult
  | writeFail (errno : Nat) : SysFileResult
  | wrote (v : Nat) : SysFileResult
deriving DecidableEq

/-- `int writeProcSysFile(const char* filename, const char* value)`,
lines 150-170: `-errno` on open failure, `-errno` on write failure,
`-EINVAL` on a short (or long) write, `0` when exactly `strlen(value)` bytes
were written. -/
def writeProcSysFile (res : SysFileResult) (value : String) : Int :=
  match res with
  | .openFail e => -(e : Int)
  | .writeFail e => -(e : Int)
  | .wrote v => if v ≠ value.length then -(EINVAL : Int) else 0

def unprivilegedBpfDisabled : String := "/proc/sys/kernel/unprivileged_bpf_disabled"

def bpfJitEnable : String := "/proc/sys/net/core/bpf_jit_enable"

def bpfJitKallsyms : String := "/proc/sys/net/core/bpf_jit_kallsyms"

/-- The sysctl block of `main`, lines 340-362: run only when
`isAtLeastU`; each knob write failure is fatal (`return 1`) exactly when the
kernel is at least that knob minimum version (5.13 for the unprivileged-bpf
switch, 4.14 for the two JIT knobs), in source order.  `fileRes` gives the
open/write result the process would observe for each proc file. -/
def sysctlPhase (isAtLeastU : Bool) (k : KVer)
    (fileRes : String → SysFileResult) : Option Int :=
  if isAtLeastU then
    if writeProcSysFile (fileRes unprivilegedBpfDisabled) "0\n" ≠ 0 ∧
        isAtLeastKernelVersion k 5 13 0 then some 1
    else if writeProcSysFile (fileRes bpfJitEnable) "1\n" ≠ 0 ∧
        isAtLeastKernelVersion k 4 14 0 then some 1
    else if writeProcSysFile (fileRes bpfJitKallsyms) "1\n" ≠ 0 ∧
        isAtLeastKernelVersion k 4 14 0 then some 1
    else none
  else none

/-! ## Pin-directory creation (createSysFsBpfSubDir, lines 127-145) -/

/-- Model filesystem-plus-process state: the set of created directories with
their mode bits, and the process umask. -/
structure SysState where
  dirs : List (String × Nat)
  umask : Nat
deriving DecidableEq

def dirExistsIn (st : SysState) (p : String) : Bool :=
  st.dirs.any (fun d => d.1 = p)

/-- The mode a directory is created with: the requested mode masked by the
current process umask (POSIX `mkdir` semantics). -/
def effectiveMode (mode um : Nat) : Nat :=
  mode &&& (0o7777 ^^^ (um &&& 0o7777))

/-- POSIX `mkdir` on the model state: `EEXIST` when the path already exists;
otherwise an exogenous failure from the oracle `failures`, or success, adding
the directory with the umask-masked mode. -/
def mkdirM (failures : String → Option Nat) (st : SysState) (path : String)
    (mode : Nat) : SysState × Option Nat :=
  if dirExistsIn st path then (st, some EEXIST)
  else
    match failures path with
    | some e => (st, some e)
    | none => ({ st with dirs := st.dirs ++ [(path, effectiveMode mode st.umask)] }, none)

/-- The mode argument in the source: `S_ISVTX | S_IRWXU | S_IRWXG | S_IRWXO`. -/
def bpfDirMode : Nat := S_ISVTX ||| S_IRWXU ||| S_IRWXG ||| S_IRWXO

/-- `int createSysFsBpfSubDir(const char* prefix)`, lines 127-145: on a
non-empty prefix, save the umask and force it to 0, `mkdir` the directory
`/sys/fs/bpf/<prefix>` with mode 01777, return `-errno` on any failure other
than `EEXIST` (note: the source returns there without restoring the umask),
otherwise restore the umask and return 0. -/
def createSysFsBpfSubDir (failures : String → Option Nat) (st : SysState)
    (pfx : String) : SysState × Int :=
  if pfx = "" then (st, 0)
  else
    let prevUmask := st.umask
    let st1 : SysState := { st with umask := 0 }
    let s := "/sys/fs/bpf/" ++ pfx
    let res := mkdirM failures st1 s bpfDirMode
    match res.2 with
    | some e =>
        if e ≠ EEXIST then (res.1, -(e : Int))
        else ({ res.1 with umask := prevUmask }, 0)
    | none => ({ res.1 with umask := prevUmask }, 0)

/-! ## Object discovery and load driver (loadAllElfObjects, lines 100-125) -/

/-- `android::bpf::Location`: a source directory and a pin prefix. -/
structure Location where
  dir : String
  pfx : String
deriving DecidableEq

/-- `android::base::EndsWith(s, suffix)` (android-base, an external
collaborator): whether the string ends with the given suffix, here as a
suffix test on the character lists. -/
def EndsWith (s sfx : String) : Bool := sfx.data.isSuffixOf s.data

/-- One iteration of the `readdir` loop in `loadAllElfObjects`
(lines 106-121): skip names not ending in ".o"; otherwise call the external
loader on `location.dir + name` and, when it fails critically, overwrite the
running return value with the loader error code.  The accumulator carries
the running return value and the list of paths the loader was invoked on. -/
def loadStep (loadProg : String → Int × Bool) (dir : String)
    (acc : Int × List String) (s : String) : Int × List String :=
  if !EndsWith s ".o" then acc
  else
    let progPath := dir ++ s
    let rc := loadProg progPath
    let retVal := if rc.1 ≠ 0 then (if rc.2 then rc.1 else acc.1) else acc.1
    (retVal, acc.2 ++ [progPath])

/-- `int loadAllElfObjects(const Location&)`, lines 100-125: when `opendir`
fails (the directory does not exist) return 0 without touching any file;
otherwise sweep every directory entry with `loadStep`.  `dirents` is the
directory listing observed through `opendir`/`readdir` (`none` when `opendir`
returns NULL), `loadProg` the external loader oracle returning (status,
critical).  Returns the aggregate status and the invoked paths. -/
def loadAllElfObjects (loadProg : String → Int × Bool)
    (dirents : Option (List String)) (loc : Location) : Int × List String :=
  match dirents with
  | none => (0, [])
  | some ents => ents.foldl (loadStep loadProg loc.dir) (0, [])

/-- The running-return-value part of the sweep in isolation: fold the
critical-failure overwrite over the invoked paths. -/
def aggregate (loadProg : String → Int × Bool) (r0 : Int) (ps : List String) : Int :=
  ps.foldl (fun r p => if (loadProg p).1 ≠ 0 ∧ (loadProg p).2 = true then (loadProg p).1 else r) r0

/-- The fixed Location table, lines 70-98. -/
def locations : List Location :=
  [⟨"/apex/com.android.tethering/etc/bpf/", "tethering/"⟩,
   ⟨"/apex/com.android.tethering/etc/bpf/netd_shared/", "netd_shared/"⟩,
   ⟨"/apex/com.android.tethering/etc/bpf/netd_readonly/", "netd_readonly/"⟩,
   ⟨"/apex/com.android.tethering/etc/bpf/net_shared/", "net_shared/"⟩,
   ⟨"/apex/com.android.tethering/etc/bpf/net_private/", "net_private/"⟩]

/-! ## The load loop, sanity check and handoff (main, lines 379-407) -/

/-- Observable events of the tail of `main`: sweeping one Location, the
boot-blocking multi-line critical diagnostic, the 20-second sleep, the sanity
map creation and write, and the final `execve`. -/
inductive Ev where
  | loadLocation (dir : String) : Ev
  | logCriticalFailure (dir : String) : Ev
  | sleep (secs : Nat) : Ev
  | createMap (mapType keySize valueSize maxEntries flags : Nat) : Ev
  | writeMap (key value : Int) : Ev
  | execve (target : String) : Ev
deriving DecidableEq

/-- How the modelled fragment of `main` terminates: `exited code`, or the
process image was replaced by a successful `execve target`. -/
inductive MainOutcome where
  | exited (code : Int) : MainOutcome
  | replaced (target : String) : MainOutcome
deriving DecidableEq

/-- The per-Location loop of `main`, lines 380-390: sweep Locations in table
order; on the first Location whose `loadAllElfObjects` is non-zero, log the
critical diagnostic, sleep 20 seconds and exit with code 2. -/
def loadPhase (loadProg : String → Int × Bool)
    (dirents : String → Option (List String)) :
    List Location → List Ev × Option Int
  | [] => ([], none)
  | loc :: rest =>
    if (loadAllElfObjects loadProg (dirents loc.dir) loc).1 ≠ 0 then
      ([Ev.loadLocation loc.dir, Ev.logCriticalFailure loc.dir, Ev.sleep 20], some 2)
    else
      let r := loadPhase loadProg dirents rest
      (Ev.loadLocation loc.dir :: r.1, r.2)

/-- Lines 379-407 of `main`: the Location loop, then the sanity check
(`createMap(BPF_MAP_TYPE_ARRAY, sizeof(int), sizeof(int), 2, 0)` followed by
`writeToMapEntry` of key 1, value 123, failure exiting with code 1), then the
final `execve` of the platform second-stage loader (exit 1 when the execve
returns).  `mapWriteRet` is the observed `writeToMapEntry` status and
`execOk` whether the final `execve` succeeds. -/
def loadAndHandoff (loadProg : String → Int × Bool)
    (dirents : String → Option (List String))
    (mapWriteRet : Int) (execOk : Bool) : List Ev × MainOutcome :=
  let r := loadPhase loadProg dirents locations
  match r.2 with
  | some c => (r.1, .exited c)
  | none =>
    let evs := r.1 ++ [Ev.createMap BPF_MAP_TYPE_ARRAY 4 4 2 0, Ev.writeMap 1 123]
    if mapWriteRet ≠ 0 then (evs, .exited 1)
    else if execOk then (evs ++ [Ev.execve platformBpfLoader], .replaced platformBpfLoader)
    else (evs ++ [Ev.execve platformBpfLoader], .exited 1)

/-! ## Theorems -/

/-- Claim C10: the init-script presence probe returns `true` only when
`access` succeeds, returns `false` only when `access` fails with `ENOENT`,
and aborts the process on any other `access` failure, so it never yields a
boolean under any other error condition. -/
theorem C10_exists_probe_spec :
    (∀ r : AccessResult, existsProbe r = .returns true ↔ r = .ok) ∧
    (∀ r : AccessResult, existsProbe r = .returns false ↔ r = .error ENOENT) ∧
    (∀ e : Nat, e ≠ ENOENT → existsProbe (.error e) = .aborts) := by
  refine ⟨?_, ?_, ?_⟩
  · intro r
    cases r with
    | ok => simp [existsProbe]
    | error e =>
      by_cases h : e = ENOENT <;> simp [existsProbe, h]
  · intro r
    cases r with
    | ok => simp [existsProbe]
    | error e =>
      by_cases h : e = ENOENT <;> simp [existsProbe, h]
  · intro e he
    simp [existsProbe, he]

theorem C10_exists_probe_spec_witness :
    existsProbe (.error 13) = .aborts :=
  C10_exists_probe_spec.2.2 13 (by decide)

/-- Claim C1 counterexample: when argv[0] equals the platform path the
resolver chosen outcome is delegate-to-the-apex-module, which lies outside
the claimed outcome set {fail-unknown, fail-conflict, delegate-legacy,
proceed}. -/
theorem C1_counterexample :
    resolveArgv platformNetBpfLoad false false = .delegateToApex ∧
    inClaimedResolverSet .delegateToApex = false := by
  constructor
  · decide
  · rfl

/-- Claim C1 (amended): the resolver chooses exactly one outcome from the
six-element set {fail-unknown, delegate-to-module, fail-missing,
fail-conflict, delegate-legacy, proceed}, as a pure function of the four
booleans, with this exact case table. -/
theorem C1_resolver_table :
    (∀ (argv0 : String) (l n : Bool),
      resolveArgv argv0 l n =
        resolve (argv0 = platformNetBpfLoad) (argv0 = apexNetBpfLoad) l n) ∧
    (∀ p m l n : Bool,
      (resolve p m l n = .failUnknown ↔ (p = false ∧ m = false)) ∧
      (resolve p m l n = .delegateToApex ↔ p = true) ∧
      (resolve p m l n = .failMissing ↔ (p = false ∧ m = true ∧ l = false ∧ n = false)) ∧
      (resolve p m l n = .failConflict ↔ (p = false ∧ m = true ∧ l = true ∧ n = true)) ∧
      (resolve p m l n = .delegateLegacy ↔ (p = false ∧ m = true ∧ l = true ∧ n = false)) ∧
      (resolve p m l n = .proceed ↔ (p = false ∧ m = true ∧ l = false ∧ n = true))) := by
  refine ⟨fun argv0 l n => rfl, ?_⟩
  decide

/-- Claim C8: a Location whose directory does not exist (opendir returns
NULL) is a successful skip: `loadAllElfObjects` returns 0 and the external
loader is invoked on no file. -/
theorem C8_missing_dir_is_skip :
    ∀ (loadProg : String → Int × Bool) (loc : Location),
      loadAllElfObjects loadProg none loc = (0, []) := by
  intro loadProg loc
  rfl

theorem loadStep_eq (lp : String → Int × Bool) (dir : String)
    (acc : Int × List String) (s : String) :
    loadStep lp dir acc s =
      if EndsWith s ".o" then
        (aggregate lp acc.1 [dir ++ s], acc.2 ++ [dir ++ s])
      else acc := by
  by_cases h : EndsWith s ".o" = true
  · by_cases h1 : (lp (dir ++ s)).1 = 0 <;>
      by_cases h2 : (lp (dir ++ s)).2 = true <;>
        simp [loadStep, aggregate, h, h1, h2]
  · simp [loadStep, h]

theorem foldl_loadStep (lp : String → Int × Bool) (dir : String) :
    ∀ (ents : List String) (r0 : Int) (l0 : List String),
      ents.foldl (loadStep lp dir) (r0, l0) =
        (aggregate lp r0 ((ents.filter (fun s => EndsWith s ".o")).map (fun s => dir ++ s)),
         l0 ++ (ents.filter (fun s => EndsWith s ".o")).map (fun s => dir ++ s)) := by
  intro ents
  induction ents with
  | nil => intro r0 l0; simp [aggregate]
  | cons s rest ih =>
    intro r0 l0
    rw [List.foldl_cons, loadStep_eq]
    by_cases h : EndsWith s ".o" = true
    · rw [ih]
      simp [h, List.filter_cons, aggregate]
    · rw [ih]
      simp [h, List.filter_cons]

theorem aggregate_of_no_critical (lp : String → Int × Bool) :
    ∀ (ps : List String) (r0 : Int),
      (∀ p ∈ ps, ¬((lp p).1 ≠ 0 ∧ (lp p).2 = true)) → aggregate lp r0 ps = r0 := by
  intro ps
  induction ps with
  | nil => intro r0 _; rfl
  | cons p rest ih =>
    intro r0 h
    have hp := h p (List.mem_cons_self p rest)
    have := ih r0 (fun q hq => h q (List.mem_cons_of_mem p hq))
    simpa [aggregate, hp] using this

theorem aggregate_ne_zero_of_ne_zero (lp : String → Int × Bool) :
    ∀ (ps : List String) (r0 : Int), r0 ≠ 0 → aggregate lp r0 ps ≠ 0 := by
  intro ps
  induction ps with
  | nil => intro r0 h; exact h
  | cons p rest ih =>
    intro r0 h
    by_cases hc : (lp p).1 ≠ 0 ∧ (lp p).2 = true
    · have : aggregate lp r0 (p :: rest) = aggregate lp ((lp p).1) rest := by
        simp [aggregate, hc]
      rw [this]
      exact ih ((lp p).1) hc.1
    · have : aggregate lp r0 (p :: rest) = aggregate lp r0 rest := by
        simp [aggregate, hc]
      rw [this]
      exact ih r0 h

theorem aggregate_ne_zero_of_critical (lp : String → Int × Bool) :
    ∀ (ps : List String) (r0 : Int),
      (∃ p ∈ ps, (lp p).1 ≠ 0 ∧ (lp p).2 = true) → aggregate lp r0 ps ≠ 0 := by
  intro ps
  induction ps with
  | nil => intro r0 h; simp at h
  | cons p rest ih =>
    intro r0 h
    by_cases hc : (lp p).1 ≠ 0 ∧ (lp p).2 = true
    · have : aggregate lp r0 (p :: rest) = aggregate lp ((lp p).1) rest := by
        simp [aggregate, hc]
      rw [this]
      exact aggregate_ne_zero_of_ne_zero lp rest ((lp p).1) hc.1
    · have heq : aggregate lp r0 (p :: rest) = aggregate lp r0 rest := by
        simp [aggregate, hc]
      rw [heq]
      rcases h with ⟨q, hq, hcrit⟩
      rcases List.mem_cons.mp hq with hq | hq
      · exact absurd (hq ▸ hcrit) hc
      · exact ih r0 ⟨q, hq, hcrit⟩

/-- Claim C2: within one Location whose directory holds the listed entries,
the driver invokes the external loader on exactly the files whose names end
in ".o" — all of them, regardless of any critical failures — and the
Location aggregate result is a failure (non-zero) precisely when at least
one invoked file reports a critical failure, so a non-critical failure leaves
the aggregate result unchanged. -/
theorem C2_load_sweep_spec :
    ∀ (lp : String → Int × Bool) (ents : List String) (loc : Location),
      (loadAllElfObjects lp (some ents) loc).2 =
        (ents.filter (fun s => EndsWith s ".o")).map (fun s => loc.dir ++ s) ∧
      ((loadAllElfObjects lp (some ents) loc).1 ≠ 0 ↔
        ∃ p ∈ (loadAllElfObjects lp (some ents) loc).2,
          (lp p).1 ≠ 0 ∧ (lp p).2 = true) := by
  intro lp ents loc
  have h : loadAllElfObjects lp (some ents) loc =
      (aggregate lp 0 ((ents.filter (fun s => EndsWith s ".o")).map (fun s => loc.dir ++ s)),
       (ents.filter (fun s => EndsWith s ".o")).map (fun s => loc.dir ++ s)) := by
    show ents.foldl (loadStep lp loc.dir) (0, []) = _
    rw [foldl_loadStep]
    simp
  rw [h]
  refine ⟨rfl, ?_, ?_⟩
  · intro hne
    by_contra hno
    push_neg at hno
    exact hne (aggregate_of_no_critical lp _ 0 (fun p hp hc => hno p hp hc.1 hc.2))
  · intro hex
    exact aggregate_ne_zero_of_critical lp _ 0 hex

/-- Claim C3: for every device API level and kernel version triple, a kernel
strictly below a requirement threshold yields that requirement configured
severity — the T (4.9) and U (4.14) thresholds warn and continue, the V
(4.19) threshold and the combined constraints (64-bit kernel on x86 at V,
64-bit userspace on 6.2+ kernels) exit non-zero — the gate is fatal only for
those three fatal conditions, and a kernel at or above every applicable
threshold makes the gate a no-op. -/
theorem capabilityGate_warn_T (api : Int) (k : KVer) (x86 k64 u32 : Bool)
    (hT : api ≥ ANDROID_API_T) (h9 : isAtLeastKernelVersion k 4 9 0 = false) :
    "Android T requires kernel 4.9." ∈ (capabilityGate api k x86 k64 u32).1 := by
  simp only [capabilityGate]
  split_ifs <;> simp_all

theorem capabilityGate_warn_U (api : Int) (k : KVer) (x86 k64 u32 : Bool)
    (hU : api ≥ ANDROID_API_U) (h14 : isAtLeastKernelVersion k 4 14 0 = false) :
    "Android U requires kernel 4.14." ∈ (capabilityGate api k x86 k64 u32).1 := by
  simp only [capabilityGate]
  split_ifs <;> simp_all

theorem capabilityGate_snd (api : Int) (k : KVer) (x86 k64 u32 : Bool) :
    (capabilityGate api k x86 k64 u32).2 =
      if ((decide (api ≥ ANDROID_API_V) && !isAtLeastKernelVersion k 4 19 0)
          || (decide (api ≥ ANDROID_API_V) && x86 && !k64)
          || (u32 && isAtLeastKernelVersion k 6 2 0)) = true then some 1 else none := by
  cases hc1 : (decide (api ≥ ANDROID_API_V) && !isAtLeastKernelVersion k 4 19 0) <;>
    cases hc2 : (decide (api ≥ ANDROID_API_V) && x86 && !k64) <;>
      cases hc3 : (u32 && isAtLeastKernelVersion k 6 2 0) <;>
        simp [capabilityGate, hc1, hc2, hc3]

theorem capabilityGate_noop (api : Int) (k : KVer) (x86 k64 u32 : Bool)
    (h1 : api ≥ ANDROID_API_T → isAtLeastKernelVersion k 4 9 0 = true)
    (h2 : api ≥ ANDROID_API_U → isAtLeastKernelVersion k 4 14 0 = true)
    (h3 : api ≥ ANDROID_API_V → isAtLeastKernelVersion k 4 19 0 = true)
    (h4 : api ≥ ANDROID_API_V → x86 = true → k64 = true)
    (h5 : u32 = true → isAtLeastKernelVersion k 6 2 0 = false) :
    capabilityGate api k x86 k64 u32 = ([], none) := by
  simp only [capabilityGate]
  by_cases hT : api ≥ ANDROID_API_T <;>
    by_cases hU : api ≥ ANDROID_API_U <;>
      by_cases hV : api ≥ ANDROID_API_V <;>
        cases x86 <;> cases u32 <;> simp_all [-not_le]

theorem C3_capability_gate_spec :
    ∀ (api : Int) (k : KVer) (x86 k64 u32 : Bool),
      (api ≥ ANDROID_API_T → isAtLeastKernelVersion k 4 9 0 = false →
        "Android T requires kernel 4.9." ∈ (capabilityGate api k x86 k64 u32).1) ∧
      (api ≥ ANDROID_API_U → isAtLeastKernelVersion k 4 14 0 = false →
        "Android U requires kernel 4.14." ∈ (capabilityGate api k x86 k64 u32).1) ∧
      (api ≥ ANDROID_API_V → isAtLeastKernelVersion k 4 19 0 = false →
        (capabilityGate api k x86 k64 u32).2 = some 1) ∧
      (api ≥ ANDROID_API_V → x86 = true → k64 = false →
        (capabilityGate api k x86 k64 u32).2 = some 1) ∧
      (u32 = true → isAtLeastKernelVersion k 6 2 0 = true →
        (capabilityGate api k x86 k64 u32).2 = some 1) ∧
      ((capabilityGate api k x86 k64 u32).2 ≠ none ↔
        ((api ≥ ANDROID_API_V ∧ isAtLeastKernelVersion k 4 19 0 = false) ∨
         (api ≥ ANDROID_API_V ∧ x86 = true ∧ k64 = false) ∨
         (u32 = true ∧ isAtLeastKernelVersion k 6 2 0 = true))) ∧
      ((api ≥ ANDROID_API_T → isAtLeastKernelVersion k 4 9 0 = true) →
       (api ≥ ANDROID_API_U → isAtLeastKernelVersion k 4 14 0 = true) →
       (api ≥ ANDROID_API_V → isAtLeastKernelVersion k 4 19 0 = true) →
       (api ≥ ANDROID_API_V → x86 = true → k64 = true) →
       (u32 = true → isAtLeastKernelVersion k 6 2 0 = false) →
        capabilityGate api k x86 k64 u32 = ([], none)) := by
  intro api k x86 k64 u32
  refine ⟨?_, ?_, ?_, ?_, ?_, ?_, ?_⟩
  · intro hT h9
    exact capabilityGate_warn_T api k x86 k64 u32 hT h9
  · intro hU h14
    exact capabilityGate_warn_U api k x86 k64 u32 hU h14
  · intro hV h19
    rw [capabilityGate_snd]
    simp [hV, h19]
  · intro hV hx hk
    rw [capabilityGate_snd]
    simp [hV, hx, hk]
  · intro hu h62
    rw [capabilityGate_snd]
    simp [hu, h62]
  · have hbool : (((decide (api ≥ ANDROID_API_V) && !isAtLeastKernelVersion k 4 19 0)
          || (decide (api ≥ ANDROID_API_V) && x86 && !k64)
          || (u32 && isAtLeastKernelVersion k 6 2 0)) = true) ↔
        ((api ≥ ANDROID_API_V ∧ isAtLeastKernelVersion k 4 19 0 = false) ∨
         (api ≥ ANDROID_API_V ∧ x86 = true ∧ k64 = false) ∨
         (u32 = true ∧ isAtLeastKernelVersion k 6 2 0 = true)) := by
      by_cases hV : api ≥ ANDROID_API_V <;> cases x86 <;> cases k64 <;> cases u32 <;>
        cases h19 : isAtLeastKernelVersion k 4 19 0 <;>
          cases h62 : isAtLeastKernelVersion k 6 2 0 <;>
            simp [hV, h19, h62]
    rw [capabilityGate_snd, ← hbool]
    cases hbig : ((decide (api ≥ ANDROID_API_V) && !isAtLeastKernelVersion k 4 19 0)
          || (decide (api ≥ ANDROID_API_V) && x86 && !k64)
          || (u32 && isAtLeastKernelVersion k 6 2 0)) <;> simp [hbig]
  · exact capabilityGate_noop api k x86 k64 u32

theorem C3_capability_gate_spec_witness :
    capabilityGate 35 ⟨6, 6, 0⟩ false true false = ([], none) :=
  (C3_capability_gate_spec 35 ⟨6, 6, 0⟩ false true false).2.2.2.2.2.2
    (by decide) (by decide) (by decide) (by decide) (by decide)

/-- Claim C4: for each of the three sysctl knobs, a failed write is treated
as success when the kernel is strictly below that knob minimum version
(5.13 for the unprivileged-bpf switch, 4.14 for the two JIT knobs) — the
phase outcome is the same as if the write had succeeded — and a failed write
makes the bootstrap exit non-zero when the kernel is at or above that knob
minimum version. -/
theorem C4_sysctl_spec :
    ∀ (k : KVer) (fileRes : String → SysFileResult),
      (isAtLeastKernelVersion k 5 13 0 = false →
        sysctlPhase true k fileRes =
          sysctlPhase true k
            (fun f => if f = unprivilegedBpfDisabled then .wrote 2 else fileRes f)) ∧
      (isAtLeastKernelVersion k 4 14 0 = false →
        sysctlPhase true k fileRes =
          sysctlPhase true k
            (fun f => if f = bpfJitEnable then .wrote 2 else fileRes f)) ∧
      (isAtLeastKernelVersion k 4 14 0 = false →
        sysctlPhase true k fileRes =
          sysctlPhase true k
            (fun f => if f = bpfJitKallsyms then .wrote 2 else fileRes f)) ∧
      (writeProcSysFile (fileRes unprivilegedBpfDisabled) "0\n" ≠ 0 →
        isAtLeastKernelVersion k 5 13 0 = true →
        sysctlPhase true k fileRes = some 1) ∧
      (writeProcSysFile (fileRes bpfJitEnable) "1\n" ≠ 0 →
        isAtLeastKernelVersion k 4 14 0 = true →
        sysctlPhase true k fileRes = some 1) ∧
      (writeProcSysFile (fileRes bpfJitKallsyms) "1\n" ≠ 0 →
        isAtLeastKernelVersion k 4 14 0 = true →
        sysctlPhase true k fileRes = some 1) := by
  intro k fileRes
  have hw0 : writeProcSysFile (SysFileResult.wrote 2) "0\n" = 0 := by decide
  have hw1 : writeProcSysFile (SysFileResult.wrote 2) "1\n" = 0 := by decide
  have e12 : unprivilegedBpfDisabled ≠ bpfJitEnable := by decide
  have e13 : unprivilegedBpfDisabled ≠ bpfJitKallsyms := by decide
  have e21 : bpfJitEnable ≠ unprivilegedBpfDisabled := by decide
  have e23 : bpfJitEnable ≠ bpfJitKallsyms := by decide
  have e31 : bpfJitKallsyms ≠ unprivilegedBpfDisabled := by decide
  have e32 : bpfJitKallsyms ≠ bpfJitEnable := by decide
  refine ⟨?_, ?_, ?_, ?_, ?_, ?_⟩
  · intro h
    simp [sysctlPhase, h, hw0, e21, e31]
  · intro h
    simp [sysctlPhase, h, hw1, e12, e31]
  · intro h
    simp [sysctlPhase, h, hw1, e13, e23]
  · intro hw h513
    simp [sysctlPhase, hw, h513]
  · intro hw h414
    simp only [sysctlPhase, if_pos]
    by_cases hc : writeProcSysFile (fileRes unprivilegedBpfDisabled) "0\n" ≠ 0 ∧
        isAtLeastKernelVersion k 5 13 0 = true
    · simp [hc]
    · simp [hc, hw, h414]
  · intro hw h414
    simp only [sysctlPhase, if_pos]
    by_cases hc1 : writeProcSysFile (fileRes unprivilegedBpfDisabled) "0\n" ≠ 0 ∧
        isAtLeastKernelVersion k 5 13 0 = true
    · simp [hc1]
    · by_cases hc2 : writeProcSysFile (fileRes bpfJitEnable) "1\n" ≠ 0 ∧
          isAtLeastKernelVersion k 4 14 0 = true
      · simp [hc1, hc2]
      · simp [hc1, hc2, hw, h414]

theorem C4_sysctl_spec_witness :
    sysctlPhase true ⟨5, 15, 0⟩ (fun _ => .openFail 13) = some 1 :=
  (C4_sysctl_spec ⟨5, 15, 0⟩ (fun _ => .openFail 13)).2.2.2.1 (by decide) (by decide)

theorem dirExistsIn_set_umask (st : SysState) (m : Nat) (p : String) :
    dirExistsIn { st with umask := m } p = dirExistsIn st p := rfl

/-- Claim C5: pin-directory creation is idempotent — invoking
`createSysFsBpfSubDir` twice for the same prefix on an empty filesystem
yields the same final directory set (the one directory, with mode 01777) and
state as invoking it once, the second invocation returning 0 (mkdir failing
with EEXIST is success); and any other mkdir failure is propagated as the
negated error code. -/
theorem C5_pin_dir_idempotent :
    ∀ (pfx : String) (u : Nat) (failures : String → Option Nat),
      pfx ≠ "" →
      (failures ("/sys/fs/bpf/" ++ pfx) = none →
        (createSysFsBpfSubDir failures ⟨[], u⟩ pfx).2 = 0 ∧
        (createSysFsBpfSubDir failures ⟨[], u⟩ pfx).1 =
          ⟨[("/sys/fs/bpf/" ++ pfx, 0o1777)], u⟩ ∧
        createSysFsBpfSubDir failures (createSysFsBpfSubDir failures ⟨[], u⟩ pfx).1 pfx =
          ((createSysFsBpfSubDir failures ⟨[], u⟩ pfx).1, 0)) ∧
      (∀ (st : SysState) (e : Nat),
        dirExistsIn st ("/sys/fs/bpf/" ++ pfx) = false →
        failures ("/sys/fs/bpf/" ++ pfx) = some e →
        e ≠ EEXIST →
        (createSysFsBpfSubDir failures st pfx).2 = -(e : Int)) := by
  intro pfx u failures hpfx
  have hm : effectiveMode bpfDirMode 0 = 0o1777 := by decide
  constructor
  · intro hnone
    have h1 : createSysFsBpfSubDir failures ⟨[], u⟩ pfx =
        (⟨[("/sys/fs/bpf/" ++ pfx, 0o1777)], u⟩, 0) := by
      simp [createSysFsBpfSubDir, mkdirM, dirExistsIn, hpfx, hnone, hm]
    refine ⟨by rw [h1], by rw [h1], ?_⟩
    rw [h1]
    simp [createSysFsBpfSubDir, mkdirM, dirExistsIn, hpfx, EEXIST]
  · intro st e hexists hfail hne
    simp only [dirExistsIn] at hexists
    simp [createSysFsBpfSubDir, mkdirM, dirExistsIn, hpfx, hexists, hfail, hne]

theorem C5_pin_dir_idempotent_witness :
    (createSysFsBpfSubDir (fun _ => none) ⟨[], 18⟩ "tethering/").2 = 0 ∧
    (createSysFsBpfSubDir (fun _ => none) ⟨[], 18⟩ "tethering/").1 =
      ⟨[("/sys/fs/bpf/" ++ "tethering/", 0o1777)], 18⟩ ∧
    createSysFsBpfSubDir (fun _ => none)
        (createSysFsBpfSubDir (fun _ => none) ⟨[], 18⟩ "tethering/").1 "tethering/" =
      ((createSysFsBpfSubDir (fun _ => none) ⟨[], 18⟩ "tethering/").1, 0) :=
  (C5_pin_dir_idempotent "tethering/" 18 (fun _ => none) (by decide)).1 rfl

/-- Claim C6 counterexample: with the entry umask 18 (022 octal) and an mkdir
failure with errno 13 (EACCES), `createSysFsBpfSubDir` returns with the
process umask still forced to 0 instead of the entry value — the source
returns on the error path before the `umask(prevUmask)` restore. -/
theorem C6_counterexample :
    (createSysFsBpfSubDir (fun _ => some 13) ⟨[], 18⟩ "tethering/").1.umask ≠ 18 := by
  decide

/-- Claim C6 (amended): `createSysFsBpfSubDir` restores the umask to its
entry value on the success path and on the already-exists path (whenever it
returns 0), but on a non-EEXIST mkdir failure it returns with the umask still
forced to 0. -/
theorem C6_umask_amended :
    ∀ (failures : String → Option Nat) (st : SysState) (pfx : String),
      (∀ p e, failures p = some e → e ≠ 0) →
      ((createSysFsBpfSubDir failures st pfx).2 = 0 →
        (createSysFsBpfSubDir failures st pfx).1.umask = st.umask) ∧
      ((createSysFsBpfSubDir failures st pfx).2 ≠ 0 →
        (createSysFsBpfSubDir failures st pfx).1.umask = 0) := by
  intro failures st pfx hpos
  by_cases hp : pfx = ""
  · simp [createSysFsBpfSubDir, hp]
  · cases hd : dirExistsIn st ("/sys/fs/bpf/" ++ pfx) with
    | true =>
      simp [createSysFsBpfSubDir, mkdirM, dirExistsIn_set_umask, hp, hd, EEXIST]
    | false =>
      cases hfe : failures ("/sys/fs/bpf/" ++ pfx) with
      | none =>
        simp [createSysFsBpfSubDir, mkdirM, dirExistsIn_set_umask, hp, hd, hfe]
      | some e =>
        have he0 : e ≠ 0 := hpos _ e hfe
        by_cases hee : e = EEXIST
        · simp [createSysFsBpfSubDir, mkdirM, dirExistsIn_set_umask, hp, hd, hfe, hee]
        · have hne : -(e : Int) ≠ 0 := by
            simp only [ne_eq, neg_eq_zero, Int.natCast_eq_zero]
            exact he0
          simp [createSysFsBpfSubDir, mkdirM, dirExistsIn_set_umask, hp, hd, hfe, hee, hne]

theorem C6_umask_amended_witness :
    (createSysFsBpfSubDir (fun _ => none) ⟨[], 18⟩ "tethering/").1.umask = 18 :=
  (C6_umask_amended (fun _ => none) ⟨[], 18⟩ "tethering/"
    (fun _ e h => nomatch h)).1 (by decide)

theorem loadPhase_all_ok (lp : String → Int × Bool)
    (dirents : String → Option (List String)) :
    ∀ locs : List Location,
      (∀ l ∈ locs, (loadAllElfObjects lp (dirents l.dir) l).1 = 0) →
      loadPhase lp dirents locs = (locs.map (fun l => Ev.loadLocation l.dir), none) := by
  intro locs
  induction locs with
  | nil => intro _; rfl
  | cons loc rest ih =>
    intro h
    have h0 := h loc (List.mem_cons_self loc rest)
    have hr := ih (fun l hl => h l (List.mem_cons_of_mem loc hl))
    simp [loadPhase, h0, hr]

theorem loadPhase_first_fail (lp : String → Int × Bool)
    (dirents : String → Option (List String)) :
    ∀ (pre : List Location) (loc : Location) (post : List Location),
      (∀ l ∈ pre, (loadAllElfObjects lp (dirents l.dir) l).1 = 0) →
      (loadAllElfObjects lp (dirents loc.dir) loc).1 ≠ 0 →
      loadPhase lp dirents (pre ++ loc :: post) =
        (pre.map (fun l => Ev.loadLocation l.dir) ++
          [Ev.loadLocation loc.dir, Ev.logCriticalFailure loc.dir, Ev.sleep 20],
         some 2) := by
  intro pre
  induction pre with
  | nil =>
    intro loc post _ hf
    simp [loadPhase, hf]
  | cons p rest ih =>
    intro loc post h hf
    have h0 := h p (List.mem_cons_self p rest)
    have hr := ih loc post (fun l hl => h l (List.mem_cons_of_mem p hl)) hf
    simp [loadPhase, h0, hr]

/-- Claim C7: when a Location aggregate load result is failure, the driver
attempts no later Location (the event trace is exactly the successful
earlier sweeps, the failing sweep, the boot-blocking diagnostic and the
20-second stall), the process exits with code 2, and neither the Sanity
Check map events nor the final execve handoff appear in the trace. -/
theorem C7_critical_failure_stops_boot :
    ∀ (lp : String → Int × Bool) (dirents : String → Option (List String))
      (mapWriteRet : Int) (execOk : Bool)
      (pre : List Location) (loc : Location) (post : List Location),
      locations = pre ++ loc :: post →
      (∀ l ∈ pre, (loadAllElfObjects lp (dirents l.dir) l).1 = 0) →
      (loadAllElfObjects lp (dirents loc.dir) loc).1 ≠ 0 →
      loadAndHandoff lp dirents mapWriteRet execOk =
        (pre.map (fun l => Ev.loadLocation l.dir) ++
          [Ev.loadLocation loc.dir, Ev.logCriticalFailure loc.dir, Ev.sleep 20],
         MainOutcome.exited 2) ∧
      (∀ a b c d e,
        Ev.createMap a b c d e ∉ (loadAndHandoff lp dirents mapWriteRet execOk).1) ∧
      (∀ t, Ev.execve t ∉ (loadAndHandoff lp dirents mapWriteRet execOk).1) ∧
      (∀ l ∈ post,
        Ev.loadLocation l.dir ∉ (loadAndHandoff lp dirents mapWriteRet execOk).1) := by
  intro lp dirents mwr exOk pre loc post heq hpre hfail
  have hphase := loadPhase_first_fail lp dirents pre loc post hpre hfail
  have hrun : loadAndHandoff lp dirents mwr exOk =
      (pre.map (fun l => Ev.loadLocation l.dir) ++
        [Ev.loadLocation loc.dir, Ev.logCriticalFailure loc.dir, Ev.sleep 20],
       MainOutcome.exited 2) := by
    unfold loadAndHandoff
    rw [heq, hphase]
  refine ⟨hrun, ?_, ?_, ?_⟩
  · intro a b c d e
    rw [hrun]
    simp
  · intro t
    rw [hrun]
    simp
  · intro l hl
    have hnd : (locations.map Location.dir).Nodup := by decide
    rw [heq] at hnd
    simp only [List.map_append, List.map_cons] at hnd
    rw [List.nodup_append] at hnd
    obtain ⟨_, hnd2, hdisj⟩ := hnd
    rw [List.nodup_cons] at hnd2
    obtain ⟨hloc, _⟩ := hnd2
    rw [hrun]
    intro hmem
    simp only [List.mem_append, List.mem_map] at hmem
    rcases hmem with ⟨x, hx, hex⟩ | hmem
    · have hxd : x.dir = l.dir := by
        simpa using hex
      exact hdisj (List.mem_map_of_mem Location.dir hx)
        (hxd ▸ List.mem_cons_of_mem _ (List.mem_map_of_mem Location.dir hl))
    · have hld : l.dir = loc.dir := by
        simpa using hmem
      exact hloc (hld ▸ List.mem_map_of_mem Location.dir hl)

theorem C7_critical_failure_stops_boot_witness :
    loadAndHandoff (fun _ => (-1, true)) (fun _ => some ["a.o"]) 0 true =
      ([Ev.loadLocation "/apex/com.android.tethering/etc/bpf/",
        Ev.logCriticalFailure "/apex/com.android.tethering/etc/bpf/",
        Ev.sleep 20], MainOutcome.exited 2) := by
  have h := C7_critical_failure_stops_boot (fun _ => (-1, true)) (fun _ => some ["a.o"])
    0 true [] ⟨"/apex/com.android.tethering/etc/bpf/", "tethering/"⟩
    [⟨"/apex/com.android.tethering/etc/bpf/netd_shared/", "netd_shared/"⟩,
     ⟨"/apex/com.android.tethering/etc/bpf/netd_readonly/", "netd_readonly/"⟩,
     ⟨"/apex/com.android.tethering/etc/bpf/net_shared/", "net_shared/"⟩,
     ⟨"/apex/com.android.tethering/etc/bpf/net_private/", "net_private/"⟩]
    rfl (by simp) (by decide)
  simpa using h.1

/-- Claim C9: once every Location has loaded successfully, the Sanity Check
creates an array-typed map with 4-byte keys, 4-byte values and two entries
and writes key 1, value 123; if the write fails the process exits with
code 1 — distinct from the critical object-load failure code 2 — and the
final handoff execve is never attempted. -/
theorem C9_sanity_check_spec :
    ∀ (lp : String → Int × Bool) (dirents : String → Option (List String))
      (mapWriteRet : Int) (execOk : Bool),
      (∀ l ∈ locations, (loadAllElfObjects lp (dirents l.dir) l).1 = 0) →
      (Ev.createMap BPF_MAP_TYPE_ARRAY 4 4 2 0 ∈
          (loadAndHandoff lp dirents mapWriteRet execOk).1 ∧
       Ev.writeMap 1 123 ∈ (loadAndHandoff lp dirents mapWriteRet execOk).1) ∧
      (mapWriteRet ≠ 0 →
        (loadAndHandoff lp dirents mapWriteRet execOk).2 = MainOutcome.exited 1 ∧
        (loadAndHandoff lp dirents mapWriteRet execOk).2 ≠ MainOutcome.exited 2 ∧
        (∀ t, Ev.execve t ∉ (loadAndHandoff lp dirents mapWriteRet execOk).1)) := by
  intro lp dirents mwr exOk hall
  have hphase := loadPhase_all_ok lp dirents locations hall
  by_cases hw : mwr = 0
  · have hrun : loadAndHandoff lp dirents mwr exOk =
        ((locations.map (fun l => Ev.loadLocation l.dir) ++
          [Ev.createMap BPF_MAP_TYPE_ARRAY 4 4 2 0, Ev.writeMap 1 123]) ++
            [Ev.execve platformBpfLoader],
         if exOk then MainOutcome.replaced platformBpfLoader
         else MainOutcome.exited 1) := by
      unfold loadAndHandoff
      rw [hphase]
      by_cases he : exOk = true <;> simp [hw, he]
    refine ⟨⟨?_, ?_⟩, fun hcon => absurd hw hcon⟩
    · rw [hrun]; simp
    · rw [hrun]; simp
  · have hrun : loadAndHandoff lp dirents mwr exOk =
        (locations.map (fun l => Ev.loadLocation l.dir) ++
          [Ev.createMap BPF_MAP_TYPE_ARRAY 4 4 2 0, Ev.writeMap 1 123],
         MainOutcome.exited 1) := by
      unfold loadAndHandoff
      rw [hphase]
      simp [hw]
    refine ⟨⟨?_, ?_⟩, fun _ => ⟨?_, ?_, ?_⟩⟩
    · rw [hrun]; simp
    · rw [hrun]; simp
    · rw [hrun]
    · rw [hrun]; simp
    · intro t
      rw [hrun]
      simp

theorem C9_sanity_check_spec_witness :
    (loadAndHandoff (fun _ => (0, false)) (fun _ => none) 1 true).2 =
      MainOutcome.exited 1 :=
  ((C9_sanity_check_spec (fun _ => (0, false)) (fun _ => none) 1 true
    (fun _ _ => rfl)).2 (by decide)).1

end NetBpfLoad
